import Mathlib

/-! Shallow embedding of the derived-computation and filtering logic of the
billing dashboard: stock-status classification, ledger and item statistics,
derived line totals, record filtering and form validation, translated from
the page components of the repository. JavaScript numbers are modelled as
exact rationals (dates additionally as civil-calendar day numbers), strings
as Lean strings, and the asynchronous persistence calls as explicit response
parameters to pure step functions. -/

namespace Billing

/-! JavaScript string helpers used by the filter and validation code. -/

/-- Does the second character list start the first one? Auxiliary for the
model of JavaScript `String.prototype.includes`. -/
def charsStartWith : List Char → List Char → Bool
  | _, [] => true
  | [], _ :: _ => false
  | c :: cs, d :: ds => c == d && charsStartWith cs ds

/-- Does the second character list occur contiguously inside the first one? -/
def charsContain : List Char → List Char → Bool
  | [], nee => nee.isEmpty
  | c :: cs, nee => charsStartWith (c :: cs) nee || charsContain cs nee

/-- Model of `s.toLowerCase()` on the character content of a string. -/
def jsToLower (s : String) : List Char := s.data.map Char.toLower

/-- Model of `s.toLowerCase().includes(sub.toLowerCase())`, the
case-insensitive substring test the search filters use. -/
def jsLowerIncludes (s sub : String) : Bool :=
  charsContain (jsToLower s) (jsToLower sub)

/-- Model of the JavaScript falsiness test `!s.trim()` (and of
`searchTerm.trim()` being empty): the string consists of whitespace only. -/
def jsTrimEmpty (s : String) : Bool := s.data.all Char.isWhitespace

/-! Stock status classification, from `getStockBadge` in the products page. -/

/-- The three stock states rendered by the products page badge. -/
inductive StockStatus
  | outOfStock
  | lowStock
  | inStock
deriving DecidableEq

/-- Product row, projected to the fields the products page logic reads
(`name`, `category`, `quantity`, `price`, `min_stock`). -/
structure Product where
  name : String
  category : String
  quantity : ℚ
  price : ℚ
  min_stock : ℚ
deriving DecidableEq

namespace ProductsPage

/-- `getStockBadge(quantity, minStock)` from the products page: out of stock
when the quantity is zero, low stock when it is at most the minimum stock,
in stock otherwise. -/
def getStockBadge (quantity minStock : ℚ) : StockStatus :=
  if quantity = 0 then .outOfStock
  else if quantity ≤ minStock then .lowStock
  else .inStock

/-- The search predicate of the products filter effect: case-insensitive
substring match of the search term against name or category. -/
def matchesSearch (searchTerm : String) (p : Product) : Bool :=
  jsLowerIncludes p.name searchTerm || jsLowerIncludes p.category searchTerm

/-- The filter effect of the products page: the search filter (when the
trimmed term is non-empty), then the category equality filter (when not
`all`), then the stock filter (`low`: quantity at most minimum stock;
`out`: quantity zero; `instock`: quantity above minimum stock). -/
def filterProducts (searchTerm categoryFilter stockFilter : String)
    (products : List Product) : List Product :=
  let f1 := if jsTrimEmpty searchTerm then products
    else products.filter (matchesSearch searchTerm)
  let f2 := if categoryFilter = "all" then f1
    else f1.filter (fun p => p.category == categoryFilter)
  if stockFilter = "low" then f2.filter (fun p => decide (p.quantity ≤ p.min_stock))
  else if stockFilter = "out" then f2.filter (fun p => p.quantity == 0)
  else if stockFilter = "instock" then f2.filter (fun p => decide (p.min_stock < p.quantity))
  else f2

/-- Modelled from the spec (testable property on filter composition): the
same two predicates of `filterProducts` applied in the reverse order,
category equality first and the search match second. -/
def filterProductsSwapped (searchTerm categoryFilter : String)
    (products : List Product) : List Product :=
  let f1 := if categoryFilter = "all" then products
    else products.filter (fun p => p.category == categoryFilter)
  if jsTrimEmpty searchTerm then f1
  else f1.filter (matchesSearch searchTerm)

/-- Product form state; `none` models an `undefined` field of the partial
form record. -/
structure ProductForm where
  name : Option String
  category : Option String
  price : Option ℚ
  quantity : Option ℚ
  min_stock : Option ℚ

/-- The five validation reasons of the products page, in source order. -/
inductive FormError
  | nameRequired
  | categoryRequired
  | priceNotPositive
  | quantityNegative
  | minStockNegative
deriving DecidableEq

/-- JS truthiness failure of `formData.field?.trim()`: the field is missing
or its trimmed value is empty. -/
def blankOrMissing : Option String → Bool
  | none => true
  | some s => jsTrimEmpty s

/-- The check `!formData.price || formData.price <= 0`: missing, zero
(falsy) or non-positive. -/
def missingOrNonpositive : Option ℚ → Bool
  | none => true
  | some p => p == 0 || decide (p ≤ 0)

/-- The check `formData.field !== undefined && formData.field < 0`. -/
def presentAndNegative : Option ℚ → Bool
  | none => false
  | some x => decide (x < 0)

/-- `validateForm` of the products page, returning the first violated rule
in source order (the page reports it with one error toast and stops). -/
def validateForm (f : ProductForm) : Option FormError :=
  if blankOrMissing f.name then some .nameRequired
  else if blankOrMissing f.category then some .categoryRequired
  else if missingOrNonpositive f.price then some .priceNotPositive
  else if presentAndNegative f.quantity then some .quantityNegative
  else if presentAndNegative f.min_stock then some .minStockNegative
  else none

end ProductsPage

/-! Ledger page: statistics aggregation and the persistence step functions. -/

/-- Transaction type of a ledger entry. -/
inductive TransactionType
  | debit
  | credit
deriving DecidableEq

/-- Ledger entry row, projected to the fields `calculateStats` reads. -/
structure LedgerEntry where
  transaction_type : TransactionType
  amount : ℚ
deriving DecidableEq

/-- The statistics record of the ledger page. -/
structure LedgerStats where
  totalDebits : ℚ
  totalCredits : ℚ
  netBalance : ℚ
deriving DecidableEq

namespace LedgerPage

/-- `calculateStats` of the ledger page: fold the amounts of the debit
entries, fold the amounts of the credit entries, and take credits minus
debits as the net balance. -/
def calculateStats (ledgerEntries : List LedgerEntry) : LedgerStats :=
  let totalDebits :=
    (ledgerEntries.filter (fun e => e.transaction_type == .debit)).foldl
      (fun sum e => sum + e.amount) 0
  let totalCredits :=
    (ledgerEntries.filter (fun e => e.transaction_type == .credit)).foldl
      (fun sum e => sum + e.amount) 0
  let netBalance := totalCredits - totalDebits
  { totalDebits := totalDebits, totalCredits := totalCredits, netBalance := netBalance }

/-- Ledger entry form state of the page (all fields are initialised, so they
are modelled as plain values). -/
structure LedgerForm where
  entity_type : String
  entity_id : String
  entity_name : String
  transaction_type : String
  amount : ℚ
  description : String
  reference_id : String
  reference_type : String
deriving DecidableEq

/-- `resetForm` of the ledger page: the initial form values. -/
def resetLedgerForm : LedgerForm :=
  { entity_type := "customer", entity_id := "", entity_name := "",
    transaction_type := "debit", amount := 0, description := "",
    reference_id := "", reference_type := "" }

/-- `validateForm` of the ledger page as a boolean: entity type present,
entity selected or named, transaction type present, positive amount. -/
def ledgerFormValid (f : LedgerForm) : Bool :=
  if f.entity_type = "" then false
  else if f.entity_id = "" && jsTrimEmpty f.entity_name then false
  else if f.transaction_type = "" then false
  else if f.amount == 0 || decide (f.amount ≤ 0) then false
  else true

/-- The in-memory state of the ledger page that the persistence handlers
read and write: the fetched entry list, the form and the editing id. -/
structure PageState where
  ledgerEntries : List LedgerEntry
  formData : LedgerForm
  editingId : Option String
deriving DecidableEq

/-- Response of one persistence call: a value or an error message. -/
inductive DbResult (α : Type)
  | ok (value : α)
  | fail (message : String)

/-- The persistence operations the ledger page can issue. -/
inductive DbOp
  | selectEntries
  | insertEntry
  | updateEntry
  | deleteEntry
deriving DecidableEq

/-- The notifications the page emits. -/
inductive Toast
  | success
  | failure
deriving DecidableEq

/-- `fetchLedgerEntries`: on auth failure, redirect and change nothing; on a
select error, toast the error and leave the entries unchanged; on success,
replace the entries. The response of the awaited select is passed as an
argument; the returned traces list the persistence calls made and the
toasts emitted. -/
def fetchLedgerEntriesStep (s : PageState) (authOk : Bool)
    (response : DbResult (List LedgerEntry)) :
    PageState × List DbOp × List Toast :=
  if authOk then
    match response with
    | .fail _ => (s, [.selectEntries], [.failure])
    | .ok data => ({ s with ledgerEntries := data }, [.selectEntries], [])
  else (s, [], [.failure])

/-- `handleSubmit` of the ledger page: validate, authenticate, then insert
(no editing id) or update (editing id set); on a write error, toast the
error and keep all state; on success, toast success, reset the form and
refetch the entries. -/
def handleSubmitStep (s : PageState) (authOk : Bool)
    (writeResponse : DbResult Unit) (refetchAuthOk : Bool)
    (refetchResponse : DbResult (List LedgerEntry)) :
    PageState × List DbOp × List Toast :=
  if ledgerFormValid s.formData then
    if authOk then
      let writeOp := match s.editingId with
        | some _ => DbOp.updateEntry
        | none => DbOp.insertEntry
      match writeResponse with
      | .fail _ => (s, [writeOp], [.failure])
      | .ok _ =>
        let s1 := { s with formData := resetLedgerForm, editingId := none }
        let r := fetchLedgerEntriesStep s1 refetchAuthOk refetchResponse
        (r.1, writeOp :: r.2.1, Toast.success :: r.2.2)
    else (s, [], [.failure])
  else (s, [], [.failure])

/-- `handleDelete` of the ledger page: confirm, authenticate, delete; on a
delete error, toast the error and keep all state; on success, toast success
and refetch the entries. -/
def handleDeleteStep (s : PageState) (confirmed authOk : Bool)
    (deleteResponse : DbResult Unit) (refetchAuthOk : Bool)
    (refetchResponse : DbResult (List LedgerEntry)) :
    PageState × List DbOp × List Toast :=
  if confirmed then
    if authOk then
      match deleteResponse with
      | .fail _ => (s, [.deleteEntry], [.failure])
      | .ok _ =>
        let r := fetchLedgerEntriesStep s refetchAuthOk refetchResponse
        (r.1, DbOp.deleteEntry :: r.2.1, Toast.success :: r.2.2)
    else (s, [], [.failure])
  else (s, [], [])

end LedgerPage

/-! Sale and purchase items pages: identical statistics computation. -/

/-- Sale or purchase item row, projected to the fields the statistics and
total computations read. -/
structure SaleItem where
  id : String
  product_name : String
  quantity : ℚ
  price : ℚ
  total : ℚ
deriving DecidableEq

/-- The statistics record of the items pages. -/
structure ItemsStats where
  totalItems : ℕ
  totalValue : ℚ
  avgPrice : ℚ
deriving DecidableEq

namespace SaleItemsPage

/-- `calculateStats` of the sale items page (the purchase items page has the
identical function): length, folded sum of the `total` fields, and the
guarded average. -/
def calculateStats (saleItems : List SaleItem) : ItemsStats :=
  let totalItems := saleItems.length
  let totalValue := saleItems.foldl (fun sum item => sum + item.total) 0
  let avgPrice := if totalItems > 0 then totalValue / (totalItems : ℚ) else 0
  { totalItems := totalItems, totalValue := totalValue, avgPrice := avgPrice }

/-- `Number(x) || 0` applied to a form field: `none` models a missing or
non-numeric (NaN) input, which the `|| 0` maps to zero. -/
def numberOr0 : Option ℚ → ℚ
  | none => 0
  | some x => x

/-- The total-recompute effect of the items pages: coerce quantity and price
with `Number(..) || 0` and store their product as the derived total. -/
def computeLineTotal (quantity price : Option ℚ) : ℚ :=
  numberOr0 quantity * numberOr0 price

end SaleItemsPage

/-! Purchases page: the date-range filter over civil dates. -/

/-- A civil date as held by a JavaScript `Date`, at day granularity;
`month` is the 0-based month index of `getMonth`. -/
structure JsDate where
  year : Int
  month : Int
  day : Int
deriving DecidableEq

/-- Gregorian leap year test. -/
def isLeapYear (y : Int) : Bool := (y % 4 == 0 && y % 100 != 0) || y % 400 == 0

/-- Number of days of the 0-based month `m` of year `y`. -/
def daysInMonth (y m : Int) : Int :=
  if m = 1 then (if isLeapYear y then 29 else 28)
  else if m = 3 ∨ m = 5 ∨ m = 8 ∨ m = 10 then 30
  else if 0 ≤ m ∧ m ≤ 11 then 31
  else 0

/-- Day number since 1970-01-01 of the day `MakeDay(y, m1 - 1, d)` of the
JavaScript date model, for a 1-based month `m1` with `0 ≤ m1 ≤ 12` (`m1 = 0`
reads as December of the previous year, which is how `setMonth` treats a
month index of `-1`). The expression is linear in `d`, so day overflow rolls
into the following months exactly as `MakeDay` does. -/
def daysFromCivil (y m1 d : Int) : Int :=
  let y2 := if m1 ≤ 2 then y - 1 else y
  let era := y2 / 400
  let yoe := y2 - era * 400
  let mp := if m1 ≤ 2 then m1 + 9 else m1 - 3
  let doy := (153 * mp + 2) / 5 + d - 1
  let doe := yoe * 365 + yoe / 4 - yoe / 100 + doy
  era * 146097 + doe - 719468

/-- Day number of a `JsDate`. -/
def JsDate.rataDie (dt : JsDate) : Int := daysFromCivil dt.year (dt.month + 1) dt.day

/-- A well-formed civil date: month index between 0 and 11, day within the
month. -/
def JsDate.Valid (dt : JsDate) : Prop :=
  0 ≤ dt.month ∧ dt.month ≤ 11 ∧ 1 ≤ dt.day ∧ dt.day ≤ daysInMonth dt.year dt.month

instance (dt : JsDate) : Decidable dt.Valid := by
  unfold JsDate.Valid
  infer_instance

/-- Purchase row, projected to the fields the purchases filter effect reads
(`vendor_name`, `id`, `status` and the parsed `purchase_date`). -/
structure Purchase where
  id : String
  vendor_name : String
  status : String
  purchase_date : JsDate
deriving DecidableEq

namespace PurchasesPage

/-- The filter effect of the purchases page, at day granularity: the search
filter over vendor name and id, the status equality filter, and the date
filter. The `today` case compares the civil day (`toDateString` equality);
the `week` case keeps dates at or after `setDate(getDate() - 7)`, which is
exactly seven days back; the `month` case keeps dates at or after
`setMonth(getMonth() - 1)`, the same day of the previous month — its 0-based
month index `today.month - 1` is the 1-based month `today.month` of
`daysFromCivil`. -/
def filterPurchases (searchTerm statusFilter dateFilter : String)
    (today : JsDate) (purchases : List Purchase) : List Purchase :=
  let f1 := if jsTrimEmpty searchTerm then purchases
    else purchases.filter (fun p =>
      jsLowerIncludes p.vendor_name searchTerm || jsLowerIncludes p.id searchTerm)
  let f2 := if statusFilter = "all" then f1
    else f1.filter (fun p => p.status == statusFilter)
  if dateFilter = "today" then f2.filter (fun p => p.purchase_date == today)
  else if dateFilter = "week" then f2.filter (fun p =>
    decide (daysFromCivil today.year (today.month + 1) (today.day - 7) ≤ p.purchase_date.rataDie))
  else if dateFilter = "month" then f2.filter (fun p =>
    decide (daysFromCivil today.year today.month today.day ≤ p.purchase_date.rataDie))
  else f2

/-- Modelled from the spec (relative date-range filter, last-30-days
option): keep exactly the records whose date falls within the 30 days
preceding today. -/
def filterLast30Days (today : JsDate) (purchases : List Purchase) : List Purchase :=
  purchases.filter (fun p => decide (today.rataDie - 30 ≤ p.purchase_date.rataDie))

end PurchasesPage

/-! Helper lemmas shared by the statistics theorems. -/

/-- Folding addition of a projected field over a list equals the initial
value plus the sum of the projections. -/
theorem foldl_add_eq_sum {α : Type} (f : α → ℚ) (l : List α) (init : ℚ) :
    l.foldl (fun s e => s + f e) init = init + (l.map f).sum := by
  induction l generalizing init with
  | nil => simp
  | cons a t ih => simp [ih]; ring

/-- C1: for every integer quantity q ≥ 0 and minimum stock m ≥ 0 the stock
badge is a strict three-way partition: out of stock exactly when q = 0 (for
every m), low stock exactly when 0 < q ≤ m, and in stock exactly when
q > m. -/
theorem getStockBadge_three_way_partition (q m : ℤ) (hq : 0 ≤ q) (hm : 0 ≤ m) :
    (ProductsPage.getStockBadge (q : ℚ) (m : ℚ) = .outOfStock ↔ q = 0) ∧
    (ProductsPage.getStockBadge (q : ℚ) (m : ℚ) = .lowStock ↔ 0 < q ∧ q ≤ m) ∧
    (ProductsPage.getStockBadge (q : ℚ) (m : ℚ) = .inStock ↔ m < q) := by
  have h0 : ((q : ℚ) = 0) ↔ q = 0 := by exact_mod_cast Iff.rfl
  have hle : ((q : ℚ) ≤ (m : ℚ)) ↔ q ≤ m := by exact_mod_cast Iff.rfl
  unfold ProductsPage.getStockBadge
  split_ifs with h1 h2
  · rw [h0] at h1
    exact ⟨by simp [h1], by simp; omega, by simp; omega⟩
  · rw [h0] at h1
    rw [hle] at h2
    exact ⟨by simp; omega, by simp; omega, by simp; omega⟩
  · rw [h0] at h1
    rw [hle] at h2
    exact ⟨by simp; omega, by simp; omega, by simp; omega⟩

/-- Witness for the partition theorem at quantity 5, minimum stock 10. -/
theorem getStockBadge_three_way_partition_witness :
    (0 : ℤ) ≤ 5 ∧ (0 : ℤ) ≤ 10 ∧
    ProductsPage.getStockBadge ((5 : ℤ) : ℚ) ((10 : ℤ) : ℚ) = .lowStock :=
  ⟨by decide, by decide,
   (getStockBadge_three_way_partition 5 10 (by decide) (by decide)).2.1.mpr (by decide)⟩

/-- C2: the ledger statistics are the filtered amount sums — totalDebits
sums the debit amounts, totalCredits sums the credit amounts, netBalance is
credits minus debits — and on the two entries debit 100 and credit 150 they
evaluate to 100, 150 and 50. -/
theorem calculateStats_sums (l : List LedgerEntry) :
    (LedgerPage.calculateStats l).totalDebits
        = ((l.filter (fun e => e.transaction_type == .debit)).map (·.amount)).sum ∧
    (LedgerPage.calculateStats l).totalCredits
        = ((l.filter (fun e => e.transaction_type == .credit)).map (·.amount)).sum ∧
    (LedgerPage.calculateStats l).netBalance
        = (LedgerPage.calculateStats l).totalCredits - (LedgerPage.calculateStats l).totalDebits ∧
    LedgerPage.calculateStats [⟨.debit, 100⟩, ⟨.credit, 150⟩]
        = { totalDebits := 100, totalCredits := 150, netBalance := 50 } := by
  refine ⟨?_, ?_, ?_, ?_⟩
  · simp [LedgerPage.calculateStats, foldl_add_eq_sum]
  · simp [LedgerPage.calculateStats, foldl_add_eq_sum]
  · simp [LedgerPage.calculateStats]
  · have h1 : (TransactionType.debit == TransactionType.debit) = true := rfl
    have h2 : (TransactionType.credit == TransactionType.debit) = false := rfl
    have h3 : (TransactionType.debit == TransactionType.credit) = false := rfl
    have h4 : (TransactionType.credit == TransactionType.credit) = true := rfl
    simp [LedgerPage.calculateStats, List.filter, h1, h2, h3, h4]
    norm_num

/-- C6: the ledger statistics computation is invariant under permutation of
the entry list. -/
theorem calculateStats_perm_invariant (l1 l2 : List LedgerEntry) (h : l1.Perm l2) :
    LedgerPage.calculateStats l1 = LedgerPage.calculateStats l2 := by
  have hd := ((h.filter (fun e => e.transaction_type == .debit)).map (·.amount)).sum_eq
  have hc := ((h.filter (fun e => e.transaction_type == .credit)).map (·.amount)).sum_eq
  simp [LedgerPage.calculateStats, foldl_add_eq_sum, hd, hc]

/-- Witness for permutation invariance on the swapped two-entry ledger. -/
theorem calculateStats_perm_invariant_witness :
    ([⟨.debit, 100⟩, ⟨.credit, 150⟩] : List LedgerEntry).Perm
      [⟨.credit, 150⟩, ⟨.debit, 100⟩] ∧
    LedgerPage.calculateStats [⟨.debit, 100⟩, ⟨.credit, 150⟩]
      = LedgerPage.calculateStats [⟨.credit, 150⟩, ⟨.debit, 100⟩] :=
  ⟨List.Perm.swap _ _ _,
   calculateStats_perm_invariant _ _ (List.Perm.swap _ _ _)⟩

/-- C4: the derived line total is quantity times price after the
`Number(..) || 0` coercion; a missing or non-numeric input is treated as
zero, and the total is zero whenever the quantity is zero, for every
price. -/
theorem computeLineTotal_spec (a b : ℚ) (p q : Option ℚ) :
    SaleItemsPage.computeLineTotal (some a) (some b) = a * b ∧
    SaleItemsPage.computeLineTotal (some 0) p = 0 ∧
    SaleItemsPage.computeLineTotal none p = 0 ∧
    SaleItemsPage.computeLineTotal q none = 0 := by
  refine ⟨rfl, ?_, ?_, ?_⟩ <;>
    simp [SaleItemsPage.computeLineTotal, SaleItemsPage.numberOr0]

/-- C5: the products validation evaluates its rules in the fixed source
order — name, category, price, quantity, minimum stock — and reports
exactly the first violated rule; on a form with empty name and price 10 it
fails with the name-required reason, the price rule never being reached. -/
theorem validateForm_first_violation (f : ProductsPage.ProductForm) :
    (ProductsPage.validateForm f = some .nameRequired ↔
       ProductsPage.blankOrMissing f.name = true) ∧
    (ProductsPage.validateForm f = some .categoryRequired ↔
       ProductsPage.blankOrMissing f.name = false ∧
       ProductsPage.blankOrMissing f.category = true) ∧
    (ProductsPage.validateForm f = some .priceNotPositive ↔
       ProductsPage.blankOrMissing f.name = false ∧
       ProductsPage.blankOrMissing f.category = false ∧
       ProductsPage.missingOrNonpositive f.price = true) ∧
    (ProductsPage.validateForm f = some .quantityNegative ↔
       ProductsPage.blankOrMissing f.name = false ∧
       ProductsPage.blankOrMissing f.category = false ∧
       ProductsPage.missingOrNonpositive f.price = false ∧
       ProductsPage.presentAndNegative f.quantity = true) ∧
    (ProductsPage.validateForm f = some .minStockNegative ↔
       ProductsPage.blankOrMissing f.name = false ∧
       ProductsPage.blankOrMissing f.category = false ∧
       ProductsPage.missingOrNonpositive f.price = false ∧
       ProductsPage.presentAndNegative f.quantity = false ∧
       ProductsPage.presentAndNegative f.min_stock = true) ∧
    (ProductsPage.validateForm f = none ↔
       ProductsPage.blankOrMissing f.name = false ∧
       ProductsPage.blankOrMissing f.category = false ∧
       ProductsPage.missingOrNonpositive f.price = false ∧
       ProductsPage.presentAndNegative f.quantity = false ∧
       ProductsPage.presentAndNegative f.min_stock = false) ∧
    ProductsPage.validateForm ⟨some "", none, some 10, none, none⟩
      = some .nameRequired := by
  refine ⟨?_, ?_, ?_, ?_, ?_, ?_, by decide⟩ <;>
  · cases hn : ProductsPage.blankOrMissing f.name <;>
    cases hc : ProductsPage.blankOrMissing f.category <;>
    cases hp : ProductsPage.missingOrNonpositive f.price <;>
    cases hq : ProductsPage.presentAndNegative f.quantity <;>
    cases hm : ProductsPage.presentAndNegative f.min_stock <;>
    simp [ProductsPage.validateForm, hn, hc, hp, hq, hm]

/-- C7: with the stock filter inactive, applying the search and category
predicates of the products filter in either order yields the same list,
namely the records satisfying the conjunction of the active predicates. -/
theorem filterProducts_order_independent (s c : String) (l : List Product) :
    ProductsPage.filterProducts s c "all" l
      = ProductsPage.filterProductsSwapped s c l ∧
    ProductsPage.filterProducts s c "all" l
      = l.filter (fun p =>
          (jsTrimEmpty s || ProductsPage.matchesSearch s p) &&
          (decide (c = "all") || p.category == c)) := by
  unfold ProductsPage.filterProducts ProductsPage.filterProductsSwapped
  by_cases hs : jsTrimEmpty s = true <;> by_cases hc : c = "all" <;>
    simp [hs, hc, List.filter_filter, Bool.and_comm]

/-- C9: the low stock filter of the products page selects exactly the
products with quantity at most minimum stock; for non-negative fields that
is the union of the low-stock and out-of-stock classes of the badge
classifier, so the selected set also contains every out-of-stock product
and is not the low-stock class alone. -/
theorem lowStockFilter_superset_of_badge (l : List Product) (p : Product)
    (hq : 0 ≤ p.quantity) (hm : 0 ≤ p.min_stock) :
    (p ∈ ProductsPage.filterProducts "" "all" "low" l ↔
       p ∈ l ∧ p.quantity ≤ p.min_stock) ∧
    (p.quantity ≤ p.min_stock ↔
       ProductsPage.getStockBadge p.quantity p.min_stock = .lowStock ∨
       ProductsPage.getStockBadge p.quantity p.min_stock = .outOfStock) := by
  constructor
  · have he : jsTrimEmpty "" = true := rfl
    unfold ProductsPage.filterProducts
    simp [he, List.mem_filter]
  · unfold ProductsPage.getStockBadge
    split_ifs with h1 h2
    · simp [h1, hm]
    · simp [h2]
    · simp [h2]

/-- Witness for the low stock filter theorem: an out-of-stock product with
quantity 0 and minimum stock 0 is selected by the low filter. -/
theorem lowStockFilter_superset_witness :
    (⟨"w", "t", 0, 1, 0⟩ : Product) ∈
      ProductsPage.filterProducts "" "all" "low" [⟨"w", "t", 0, 1, 0⟩] :=
  (lowStockFilter_superset_of_badge _ _ (le_refl 0) (le_refl 0)).1.mpr
    ⟨List.mem_singleton_self _, le_refl 0⟩

/-- C10: the items statistics are the list length, the sum of the item
totals, and the average price guarded on the empty list: zero for no items
and total value over item count otherwise. -/
theorem calculateItemsStats_spec (items : List SaleItem) :
    (SaleItemsPage.calculateStats items).totalItems = items.length ∧
    (SaleItemsPage.calculateStats items).totalValue = (items.map (·.total)).sum ∧
    (SaleItemsPage.calculateStats items).avgPrice =
      if items = [] then 0 else (items.map (·.total)).sum / (items.length : ℚ) := by
  refine ⟨rfl, by simp [SaleItemsPage.calculateStats, foldl_add_eq_sum], ?_⟩
  cases items with
  | nil => simp [SaleItemsPage.calculateStats]
  | cons a t => simp [SaleItemsPage.calculateStats, foldl_add_eq_sum]

/-- C8: for the fetch, create/update and delete handlers of the ledger page,
a persistence error leaves the entry list, the form data and the editing id
exactly as they were, emits exactly one error notification for the
triggering action, and issues the failed operation at most once — never a
retry and never the follow-up refetch. -/
theorem persistenceErrorLeavesStateUnchanged (s : LedgerPage.PageState)
    (authOk confirmed refetchAuthOk : Bool) (msg : String)
    (rr : LedgerPage.DbResult (List LedgerEntry)) :
    (LedgerPage.fetchLedgerEntriesStep s authOk (.fail msg)).1 = s ∧
    (LedgerPage.fetchLedgerEntriesStep s authOk (.fail msg)).2.1.length ≤ 1 ∧
    (LedgerPage.fetchLedgerEntriesStep s authOk (.fail msg)).2.2 = [.failure] ∧
    (LedgerPage.handleSubmitStep s authOk (.fail msg) refetchAuthOk rr).1 = s ∧
    (LedgerPage.handleSubmitStep s authOk (.fail msg) refetchAuthOk rr).2.1.length ≤ 1 ∧
    (LedgerPage.handleSubmitStep s authOk (.fail msg) refetchAuthOk rr).2.2 = [.failure] ∧
    (LedgerPage.handleDeleteStep s confirmed authOk (.fail msg) refetchAuthOk rr).1 = s ∧
    (LedgerPage.handleDeleteStep s confirmed authOk (.fail msg) refetchAuthOk rr).2.1.length ≤ 1 ∧
    (LedgerPage.handleDeleteStep s confirmed authOk (.fail msg) refetchAuthOk rr).2.2
      = (if confirmed then [LedgerPage.Toast.failure] else []) := by
  unfold LedgerPage.fetchLedgerEntriesStep LedgerPage.handleSubmitStep
    LedgerPage.handleDeleteStep
  cases authOk <;> cases confirmed <;>
    cases hv : LedgerPage.ledgerFormValid s.formData <;>
    cases he : s.editingId <;> simp [hv, he]

/-- C3 counterexample: with today 15 March 2026, the month option of the
purchases date filter drops a purchase dated 14 February 2026 even though
that date lies within the 30 days preceding today (29 days back), while the
spec-side last-30-days filter keeps it. -/
theorem purchasesMonthFilter_counterexample :
    PurchasesPage.filterPurchases "" "all" "month" ⟨2026, 2, 15⟩
        [⟨"p1", "Acme", "pending", ⟨2026, 1, 14⟩⟩] = [] ∧
    (⟨2026, 2, 15⟩ : JsDate).rataDie - (⟨2026, 1, 14⟩ : JsDate).rataDie = 29 ∧
    PurchasesPage.filterLast30Days ⟨2026, 2, 15⟩
        [⟨"p1", "Acme", "pending", ⟨2026, 1, 14⟩⟩]
      = [⟨"p1", "Acme", "pending", ⟨2026, 1, 14⟩⟩] := by decide

/-- C3 amended: the month option keeps exactly the records, among those
passing the other active predicates, whose date is on or after the same day
of the previous calendar month (JavaScript `setMonth` semantics, day
overflow rolling forward); for every well-formed today this cutoff lies
between 28 and 31 days before today, so it is not the 30-days boundary. -/
theorem purchasesMonthFilter_amended (s st : String) (today : JsDate)
    (l : List Purchase) (p : Purchase) (hv : today.Valid) :
    (p ∈ PurchasesPage.filterPurchases s st "month" today l ↔
       p ∈ l ∧
       (jsTrimEmpty s = false →
          (jsLowerIncludes p.vendor_name s || jsLowerIncludes p.id s) = true) ∧
       (st ≠ "all" → p.status = st) ∧
       daysFromCivil today.year today.month today.day ≤ p.purchase_date.rataDie) ∧
    today.rataDie - 31 ≤ daysFromCivil today.year today.month today.day ∧
    daysFromCivil today.year today.month today.day ≤ today.rataDie - 28 := by
  obtain ⟨y, m, d⟩ := today
  obtain ⟨hm0, hm11, _, _⟩ := hv
  constructor
  · have h1 : ("month" : String) ≠ "today" := by decide
    have h2 : ("month" : String) ≠ "week" := by decide
    unfold PurchasesPage.filterPurchases
    by_cases hs : jsTrimEmpty s = true <;> by_cases hst : st = "all" <;>
      simp [h1, h2, hs, hst, List.mem_filter, and_assoc] <;> tauto
  · simp only [JsDate.rataDie, daysFromCivil] at *
    interval_cases m <;> omega

/-- Witness for the amended month-filter theorem at today 15 March 2026. -/
theorem purchasesMonthFilter_amended_witness :
    (⟨2026, 2, 15⟩ : JsDate).Valid ∧
    ((⟨2026, 2, 15⟩ : JsDate).rataDie - 31 ≤ daysFromCivil 2026 2 15 ∧
     daysFromCivil 2026 2 15 ≤ (⟨2026, 2, 15⟩ : JsDate).rataDie - 28) :=
  ⟨by decide,
   (purchasesMonthFilter_amended "" "all" ⟨2026, 2, 15⟩ []
      ⟨"p1", "Acme", "pending", ⟨2026, 1, 14⟩⟩ (by decide)).2⟩

end Billing
